import Mathlib

/-!
Verification of the `pdok-apis` Rust library (clients for the Dutch PDOK
registries) against its natural-language specification.

The Rust code is shallowly embedded: `f64` coordinates become rational
numbers `ℚ`, fallible operations return `Option`/`Except`, panics are an
explicit outcome, and the HTTP transport and JSON decoding performed by
`reqwest`/`serde` are modelled as oracle functions carried in a `BagWorld`
record, so every client operation is a pure function of the oracles.
-/

namespace PdokApis

/-! ## Embedding of `src/util.rs` (geo types and bounding-box helpers) -/

/-- A planar coordinate (geo `Coord<f64>`), with `ℚ` standing in for `f64`. -/
structure Coord where
  x : ℚ
  y : ℚ
deriving DecidableEq, Repr

/-- An axis-aligned bounding box (geo `Rect<f64>`): a min corner and a max
corner. -/
structure Rect where
  min : Coord
  max : Coord
deriving DecidableEq, Repr

/-- geo `Rect::new`: builds a rect from two corners, normalising them
componentwise so that `min ≤ max` on each axis. -/
def Rect.new (c1 c2 : Coord) : Rect :=
  ⟨⟨Min.min c1.x c2.x, Min.min c1.y c2.y⟩, ⟨Max.max c1.x c2.x, Max.max c1.y c2.y⟩⟩

/-- geo `Rect::width`. -/
def Rect.width (r : Rect) : ℚ := r.max.x - r.min.x

/-- geo `Rect::height`. -/
def Rect.height (r : Rect) : ℚ := r.max.y - r.min.y

/-- geo `Rect::centroid`. -/
def Rect.centroid (r : Rect) : Coord :=
  ⟨(r.min.x + r.max.x) / 2, (r.min.y + r.max.y) / 2⟩

/-- The invariant geo maintains for every `Rect` it hands out:
`Rect::new` normalises its corners and `set_min`/`set_max` assert it, so a
rect with `min > max` on some axis is not constructible in the Rust API. -/
def Rect.proper (r : Rect) : Prop :=
  r.min.x ≤ r.max.x ∧ r.min.y ≤ r.max.y

instance (r : Rect) : Decidable r.proper :=
  decidable_of_iff (r.min.x ≤ r.max.x ∧ r.min.y ≤ r.max.y) Iff.rfl

/-- `util.rs` `merge_bboxes`: merge two bboxes to a single bbox. -/
def merge_bboxes (acc r : Rect) : Rect :=
  Rect.new
    ⟨Min.min acc.min.x r.min.x, Min.min acc.min.y r.min.y⟩
    ⟨Max.max acc.max.x r.max.x, Max.max acc.max.y r.max.y⟩

/-- `util.rs` `fold_first`: fold where the initial accumulator is the first
element; `none` when the iterator is empty. -/
def fold_first {X : Type} (iter : List X) (func : X → X → X) : Option X :=
  match iter with
  | [] => none
  | first :: rest => some (rest.foldl func first)

/-- `util.rs` `merge_bbox_iter`: merge an iterator of bboxes to a single
bbox. -/
def merge_bbox_iter (iter : List Rect) : Option Rect :=
  fold_first iter merge_bboxes

/-- `util.rs` `stretch_to_square`. In the Rust source the four statements
`rect.min().y = ...`, `rect.max().y = ...`, `rect.min().x = ...`,
`rect.max().x = ...` assign through `Rect::min()` / `Rect::max()`, which
return `Coord` values by copy; each assignment writes into a temporary that
is immediately dropped, so the function returns its argument unchanged. -/
def stretch_to_square (rect : Rect) : Rect :=
  rect

/-- `util.rs` `add_margin`: add a margin to both sides of the rect (built
with `Rect::new`, hence re-normalised). -/
def add_margin (rect : Rect) (margin : ℚ) : Rect :=
  Rect.new
    ⟨rect.min.x - margin, rect.min.y - margin⟩
    ⟨rect.max.x + margin, rect.max.y + margin⟩

/-- `util.rs` `expand_to_size`. -/
def expand_to_size (rect : Rect) (size : ℚ) : Rect :=
  let square_bbox := stretch_to_square rect
  let width := square_bbox.max.y - square_bbox.min.y
  let margin := (size - width) / 2
  add_margin square_bbox margin

/-! ## Embedding of `src/lib.rs` and `src/brk.rs` (shared error type, CRS,
lot-client builder) -/

/-- Stand-in for an opaque `reqwest::Error` value. -/
structure ReqwestError where
  id : Nat
deriving DecidableEq, Repr

/-- `lib.rs` `Error`: the library-wide error enum. It has exactly these
three variants. -/
inductive Error where
  | networkProblem (e : ReqwestError)
  | jsonProblem (e : ReqwestError)
  | emptyResponse
deriving DecidableEq, Repr

/-- `lib.rs` `CoordinateSpace`. -/
inductive CoordinateSpace where
  | rijksdriehoek
  | gps
deriving DecidableEq, Repr

/-- `lib.rs` `CoordinateSpace::as_str`. -/
def CoordinateSpace.as_str : CoordinateSpace → String
  | .rijksdriehoek => "epsg:28992"
  | .gps => "epsg:4258"

/-- `brk.rs` `BrkClientBuilder` (configuration fields only; the built
`reqwest::Client` is outside the embedding). -/
structure BrkClientBuilder where
  accept_crs : CoordinateSpace
  connection_timeout_secs : Nat
  request_timeout_secs : Nat
  user_agent : String
deriving DecidableEq, Repr

/-- `brk.rs` `BrkClientBuilder::new`. -/
def BrkClientBuilder.new (user_agent : String) : BrkClientBuilder :=
  ⟨CoordinateSpace.gps, 5, 20, user_agent⟩

/-! ## Embedding of `src/bag.rs` (building registry client) -/

/-- A GeoJSON position (`geojson::Position`, a `Vec<f64>`). -/
abbrev Position := List ℚ

/-- `geojson::Value`, restricted to the geometry discriminants. The payload
of `geometryCollection` is never inspected by the code under verification,
so it is left out. -/
inductive GeojsonValue where
  | point (p : Position)
  | multiPoint (ps : List Position)
  | lineString (ps : List Position)
  | multiLineString (ls : List (List Position))
  | polygon (rings : List (List Position))
  | multiPolygon (polys : List (List (List Position)))
  | geometryCollection
deriving DecidableEq, Repr

/-- `geojson::Geometry` (bbox and foreign members are never inspected). -/
structure Geometry where
  value : GeojsonValue
deriving DecidableEq, Repr

/-- geo `LineString<f64>`: a sequence of 2-D points. -/
abbrev LineString := List (ℚ × ℚ)

/-- geo `LineString::close`: append the first point when the ring is not
closed (`first ≠ last`); the empty linestring counts as closed. -/
def lineStringClose (ls : LineString) : LineString :=
  if ls.head? = ls.getLast? then ls else ls ++ ls.take 1

/-- geo `Polygon<f64>`: an exterior ring plus interior (hole) rings. -/
structure GeoPolygon where
  exterior : LineString
  interiors : List LineString
deriving DecidableEq, Repr

/-- geo `Polygon::new`: closes the exterior and every interior ring. -/
def GeoPolygon.new (exterior : LineString) (interiors : List LineString) : GeoPolygon :=
  ⟨lineStringClose exterior, interiors.map lineStringClose⟩

/-- `bag.rs` `linestring_help`: turn a slice of GeoJSON positions into a geo
linestring. A position with neither 2 nor 3 components hits
`panic!("invalid positions for a polygon")`; the panic is modelled as
`none`. -/
def linestring_help : List Position → Option LineString
  | [] => some []
  | position :: rest =>
    match position with
    | [x, y] => (linestring_help rest).map (fun tail => (x, y) :: tail)
    | [x, y, _] => (linestring_help rest).map (fun tail => (x, y) :: tail)
    | _ => none

/-- The `inner_positions.iter().map(|x| linestring_help(x)).collect()` step
of `geojson_value_to_polygon`; `none` models a panic inside
`linestring_help`. -/
def rings_help : List (List Position) → Option (List LineString)
  | [] => some []
  | r :: rest =>
    match linestring_help r, rings_help rest with
    | some ls, some tail => some (ls :: tail)
    | _, _ => none

/-- `bag.rs` `geojson_value_to_polygon`. The outer `Option` layer models
panics: `GeojsonValue.polygon []` hits `unreachable!()` and a malformed
position panics inside `linestring_help`, both yielding `none`. A
successful run yields `some r` where `r` is the Rust `Option<Polygon>`
return value (`none` for every non-Polygon discriminant). -/
def geojson_value_to_polygon (value : GeojsonValue) : Option (Option GeoPolygon) :=
  match value with
  | .polygon rings =>
    match rings with
    | [] => none
    | outer_positions :: inner_positions =>
      match linestring_help outer_positions, rings_help inner_positions with
      | some outer, some inners => some (some (GeoPolygon.new outer inners))
      | _, _ => none
  | _ => some none

/-- geo `Line::determinant` summed over the consecutive point pairs of a
linestring: twice the signed ring area (`get_linestring_area` before the
division by two). -/
def twice_ring_area : LineString → ℚ
  | p :: q :: rest => (p.1 * q.2 - q.1 * p.2) + twice_ring_area (q :: rest)
  | _ => 0

/-- geo `get_linestring_area`. -/
def get_linestring_area (ls : LineString) : ℚ := twice_ring_area ls / 2

/-- geo `Area::signed_area` for a polygon: the exterior ring area plus the
(opposite-oriented) interior ring areas. -/
def signed_area (p : GeoPolygon) : ℚ :=
  p.interiors.foldl (fun total next => total + get_linestring_area next)
    (get_linestring_area p.exterior)

/-- geo `Area::unsigned_area`. -/
def unsigned_area (p : GeoPolygon) : ℚ := |signed_area p|

/-- `f64::round`: round half away from zero, as applied to the (exact)
rational area. -/
def rat_round (q : ℚ) : Int := if 0 ≤ q then ⌊q + 1 / 2⌋ else ⌈q - 1 / 2⌉

/-- `Area::unsigned_area(&polygon).round().to_string()` from
`decode_verblijfsobjecten`. -/
def area_string (p : GeoPolygon) : String := toString (rat_round (unsigned_area p))

/-- `bag.rs` `BuildingEmbedded`. -/
structure BuildingEmbedded where
  identificatie : String
  geometry : Geometry
  bouwjaar : String
  pandstatus : String
deriving DecidableEq, Repr

/-- `bag.rs` `Building`. -/
structure Building where
  pand : BuildingEmbedded
deriving DecidableEq, Repr

/-- `bag.rs` `Pand`: the per-building result record of `get_panden`. -/
structure Pand where
  identificatiecode : String
  pandvlak : String
  vloeroppervlak : String
  bouwjaar : String
  pandstatus : String
  objectstatus : String
  gebruiksdoel : String
  geometry : Geometry
deriving DecidableEq, Repr

/-- `decode_verblijfsobjecten`'s local `Link` type. -/
structure Link where
  href : String
deriving DecidableEq, Repr

/-- `decode_verblijfsobjecten`'s local `Links` type. -/
structure Links where
  maakt_deel_uit_van : List Link
deriving DecidableEq, Repr

/-- `decode_verblijfsobjecten`'s local `VerblijfsObject` type. -/
structure VerblijfsObject where
  status : String
  oppervlakte : Int
  gebruiksdoelen : List String
deriving DecidableEq, Repr

/-- `decode_verblijfsobjecten`'s local `VerblijfsObjectResponse` type. -/
structure VerblijfsObjectResponse where
  verblijfsobject : VerblijfsObject
  links : Links
deriving DecidableEq, Repr

/-- Stand-in for an undecoded `reqwest::Response`. -/
structure Response where
  id : Nat
deriving DecidableEq, Repr

/-- Outcome of running a fallible Rust function: a return value, an `Err`,
or a panic. -/
inductive RunResult (α : Type) where
  | ok (a : α)
  | err (e : Error)
  | panicked
deriving DecidableEq, Repr

/-- The effectful environment of `BagClient`: the HTTP transport (keyed by
URL) and the two `serde` decoders (`response.json::<T>()` for the root
`VerblijfsObjectResponse` and for a linked `Building`). -/
structure BagWorld where
  transport : String → Except ReqwestError Response
  decodeRoot : Response → Except ReqwestError VerblijfsObjectResponse
  decodeBuilding : Response → Except ReqwestError Building

/-- `bag.rs` `BagClient::BAG_URL`. -/
def BAG_URL : String := "https://api.bag.kadaster.nl/lvbag/individuelebevragingen/v2"

/-- The URL built at the start of `get_panden`. -/
def bag_object_url (object_id : String) : String :=
  BAG_URL ++ "/verblijfsobjecten/" ++ object_id

/-- `bag.rs` `BagClient::get_link`: fetch an embedded link; a send failure
becomes `NetworkProblem`, a decode failure becomes `JsonProblem`. -/
def get_link (w : BagWorld) (url : String) : Except Error Building :=
  match w.transport url with
  | .error e => .error (.networkProblem e)
  | .ok client_response =>
    match w.decodeBuilding client_response with
    | .error e => .error (.jsonProblem e)
    | .ok response => .ok response

/-- The `Pand` record built in the body of the `for pand in panden` loop of
`decode_verblijfsobjecten`. -/
def mk_pand (building : Building) (polygon : GeoPolygon) (vloeroppervlak : Int)
    (objectstatus gebruiksdoel : String) : Pand :=
  ⟨building.pand.identificatie, area_string polygon, toString vloeroppervlak,
    building.pand.bouwjaar, building.pand.pandstatus, objectstatus, gebruiksdoel,
    building.pand.geometry⟩

/-- The `for pand in panden` loop of `decode_verblijfsobjecten`: each link
is fetched with `get_link` (`?` propagates its error), the geometry is
converted with `geojson_value_to_polygon(...).unwrap()` (panicking on
`None` and on malformed rings), and the results are accumulated in
order. -/
def resolve_links (w : BagWorld) (vloeroppervlak : Int)
    (objectstatus gebruiksdoel : String) : List Link → RunResult (List Pand)
  | [] => .ok []
  | pand :: rest =>
    match get_link w pand.href with
    | .error e => .err e
    | .ok building =>
      match geojson_value_to_polygon building.pand.geometry.value with
      | none => .panicked
      | some none => .panicked
      | some (some polygon) =>
        match resolve_links w vloeroppervlak objectstatus gebruiksdoel rest with
        | .ok results =>
          .ok (mk_pand building polygon vloeroppervlak objectstatus gebruiksdoel :: results)
        | .err e => .err e
        | .panicked => .panicked

/-- `bag.rs` `BagClient::decode_verblijfsobjecten`. -/
def decode_verblijfsobjecten (w : BagWorld) (response : Response) :
    RunResult (List Pand) :=
  match w.decodeRoot response with
  | .error e => .err (.jsonProblem e)
  | .ok decoded =>
    let objectstatus := decoded.verblijfsobject.status
    let vloeroppervlak := decoded.verblijfsobject.oppervlakte
    let gebruiksdoelen := decoded.verblijfsobject.gebruiksdoelen
    let gebruiksdoel := String.intercalate ", " gebruiksdoelen
    let panden := decoded.links.maakt_deel_uit_van
    resolve_links w vloeroppervlak objectstatus gebruiksdoel panden

/-- `bag.rs` `BagClient::get_panden`: a transport-level failure of the root
request is downgraded to `Ok(vec![])`; otherwise the response is decoded
with `decode_verblijfsobjecten` and its outcome (`?`) propagates. -/
def get_panden (w : BagWorld) (object_id : String) : RunResult (List Pand) :=
  match w.transport (bag_object_url object_id) with
  | .ok response => decode_verblijfsobjecten w response
  | .error _ => .ok []

/-- The probe object id hard-coded in `get_bag_status`. -/
def tg_office_verblijfsobject : String := "0268010000084126"

/-- `bag.rs` `BagClient::get_bag_status`: fetch the panden of the probe
object (`?` propagates errors), return `Ok(true)` when exactly one pand
came back, and hit `panic!()` on any other count. -/
def get_bag_status (w : BagWorld) : RunResult Bool :=
  match get_panden w tg_office_verblijfsobject with
  | .err e => .err e
  | .panicked => .panicked
  | .ok panden =>
    match panden.length with
    | 1 => .ok true
    | _ => .panicked

/-! ## Proof-support definitions -/

/-- The merge of an optional accumulator with one more rect: `none` stands
for "no rect folded yet". `merge_bbox_iter` is a fold of this step function
(proved below); it is the bridge to permutation reasoning. -/
def merge_step : Option Rect → Rect → Option Rect
  | none, r => some r
  | some b, r => some (merge_bboxes b r)

/-- `merge_bboxes` without the re-normalisation performed by `Rect.new`;
the two agree whenever the second argument is a proper rect. -/
def merge_naive (a b : Rect) : Rect :=
  ⟨⟨Min.min a.min.x b.min.x, Min.min a.min.y b.min.y⟩,
   ⟨Max.max a.max.x b.max.x, Max.max a.max.y b.max.y⟩⟩

/-! ## Concrete fixtures used by witness theorems -/

/-- A building whose geometry is a well-formed GeoJSON polygon. -/
def building1 : Building :=
  ⟨⟨"B1", ⟨GeojsonValue.polygon [[[0, 0], [1, 0], [0, 0]]]⟩, "2008", "st"⟩⟩

/-- The geo polygon `building1`'s geometry converts to. -/
def poly1 : GeoPolygon := GeoPolygon.new [(0, 0), (1, 0), (0, 0)] []

/-- The pand produced for `building1` under the fixture root record. -/
def p_ok : Pand := mk_pand building1 poly1 42 "s" "a, b"

/-- A root record with two links (to the same target, exercising the
no-deduplication behaviour). -/
def decoded_two : VerblijfsObjectResponse := ⟨⟨"s", 42, ["a", "b"]⟩, ⟨[⟨"a"⟩, ⟨"a"⟩]⟩⟩

/-- A root record with a single link. -/
def decoded_one : VerblijfsObjectResponse := ⟨⟨"s", 42, ["a", "b"]⟩, ⟨[⟨"a"⟩]⟩⟩

/-- A root record whose first link is good and whose second link is the
unreachable URL "bad". -/
def decoded_mixed : VerblijfsObjectResponse := ⟨⟨"s", 42, ["a", "b"]⟩, ⟨[⟨"a"⟩, ⟨"bad"⟩]⟩⟩

/-- The pand list produced by `w_ok` for any object id. -/
def pands_ok : List Pand := [p_ok, p_ok]

/-- A world where every request and decode succeeds. -/
def w_ok : BagWorld := ⟨fun _ => .ok ⟨1⟩, fun _ => .ok decoded_two, fun _ => .ok building1⟩

/-- A world where the probe object resolves to exactly one pand. -/
def w_status : BagWorld := ⟨fun _ => .ok ⟨1⟩, fun _ => .ok decoded_one, fun _ => .ok building1⟩

/-- A world where only the URL "bad" fails at the transport level. -/
def w_mixed : BagWorld :=
  ⟨fun url => if url = "bad" then .error ⟨7⟩ else .ok ⟨1⟩,
   fun _ => .ok decoded_mixed, fun _ => .ok building1⟩

/-- A world where every request fails at the transport level. -/
def w_netfail : BagWorld := ⟨fun _ => .error ⟨7⟩, fun _ => .error ⟨7⟩, fun _ => .error ⟨7⟩⟩

/-- A world where transport succeeds but the root decode fails. -/
def w_decodefail : BagWorld := ⟨fun _ => .ok ⟨1⟩, fun _ => .error ⟨8⟩, fun _ => .error ⟨8⟩⟩

/-- A proper rect fixture. -/
def rA : Rect := ⟨⟨0, 0⟩, ⟨1, 1⟩⟩

/-- A second proper rect fixture. -/
def rB : Rect := ⟨⟨2, 2⟩, ⟨3, 3⟩⟩

/-! ## Helper lemmas -/

/-- From an order-preserving correspondence, each element of the right list
is related to some element of the left list. -/
lemma forall2_mem_right {α β : Type} {R : α → β → Prop} {l : List α} {r : List β}
    (h : List.Forall₂ R l r) : ∀ p ∈ r, ∃ a ∈ l, R a p := by
  induction h with
  | nil => intro p hp; cases hp
  | cons hR hrest ih =>
    intro p hp
    rcases List.mem_cons.mp hp with rfl | hp
    · exact ⟨_, List.mem_cons_self _ _, hR⟩
    · obtain ⟨a, ha, hRa⟩ := ih p hp
      exact ⟨a, List.mem_cons_of_mem _ ha, hRa⟩

/-- A well-formed position list (each position 2-D or 3-D) never panics in
`linestring_help`. -/
lemma linestring_help_total (positions : List Position)
    (h : ∀ pos ∈ positions, pos.length = 2 ∨ pos.length = 3) :
    ∃ ls, linestring_help positions = some ls := by
  induction positions with
  | nil => exact ⟨[], rfl⟩
  | cons p rest ih =>
    obtain ⟨ls, hls⟩ := ih (fun pos hp => h pos (List.mem_cons_of_mem _ hp))
    have hp := h p (List.mem_cons_self p rest)
    rcases p with _ | ⟨a, _ | ⟨b, _ | ⟨c, _ | ⟨d, r⟩⟩⟩⟩
    · simp at hp
    · simp at hp
    · exact ⟨(a, b) :: ls, by simp [linestring_help, hls]⟩
    · exact ⟨(a, b) :: ls, by simp [linestring_help, hls]⟩
    · simp at hp

/-- Well-formed interior rings never panic, and their count is preserved. -/
lemma rings_help_total (rings : List (List Position))
    (h : ∀ ring ∈ rings, ∀ pos ∈ ring, pos.length = 2 ∨ pos.length = 3) :
    ∃ ls, rings_help rings = some ls ∧ ls.length = rings.length := by
  induction rings with
  | nil => exact ⟨[], rfl, rfl⟩
  | cons r rest ih =>
    obtain ⟨ls, hls, hlen⟩ := ih (fun x hx => h x (List.mem_cons_of_mem _ hx))
    obtain ⟨l1, hl1⟩ := linestring_help_total r (h r (List.mem_cons_self r rest))
    exact ⟨l1 :: ls, by simp [rings_help, hl1, hls], by simp [hlen]⟩

/-! ## Claim theorems -/

/-- Claim C2 (code bug): `expand_to_size` on the 4×2 rect at the origin
with target size 10 yields a 12×10 rect, not a 10×10 square, because
`stretch_to_square` leaves its input unchanged (its assignments go through
the by-value accessors `Rect::min()` / `Rect::max()` and hit temporaries).
The spec and the function's own doc comments ("Stretch a Rect to a
square", "Expand the bounding box to the given size (height and width)")
describe the intended squaring behaviour, which the code does not
implement. -/
theorem expand_to_size_not_square :
    expand_to_size ⟨⟨0, 0⟩, ⟨4, 2⟩⟩ 10 = Rect.mk ⟨-4, -4⟩ ⟨8, 6⟩ ∧
    (expand_to_size ⟨⟨0, 0⟩, ⟨4, 2⟩⟩ 10).width = 12 ∧
    (expand_to_size ⟨⟨0, 0⟩, ⟨4, 2⟩⟩ 10).height = 10 ∧
    stretch_to_square ⟨⟨0, 0⟩, ⟨4, 2⟩⟩ = ⟨⟨0, 0⟩, ⟨4, 2⟩⟩ := by
  refine ⟨?_, ?_, ?_, rfl⟩ <;>
    simp only [expand_to_size, stretch_to_square, add_margin, Rect.new, Rect.width,
      Rect.height, Rect.mk.injEq, Coord.mk.injEq] <;>
    norm_num [min_def, max_def]

/-- Claim C3 counterexample: the lot-client builder's default accept-CRS is
not the planar system (Rijksdriehoek). -/
theorem brk_default_crs_not_planar :
    (BrkClientBuilder.new "ua").accept_crs ≠ CoordinateSpace.rijksdriehoek :=
  fun h => CoordinateSpace.noConfusion h

/-- Claim C3 (amended): `BrkClientBuilder::new` defaults accept-CRS to the
geodetic system (`Gps`, epsg:4258), with connection timeout 5 seconds and
total request timeout 20 seconds. -/
theorem brk_builder_defaults (user_agent : String) :
    (BrkClientBuilder.new user_agent).accept_crs = CoordinateSpace.gps ∧
    (BrkClientBuilder.new user_agent).accept_crs.as_str = "epsg:4258" ∧
    (BrkClientBuilder.new user_agent).connection_timeout_secs = 5 ∧
    (BrkClientBuilder.new user_agent).request_timeout_secs = 20 ∧
    (BrkClientBuilder.new user_agent).user_agent = user_agent :=
  ⟨rfl, rfl, rfl, rfl, rfl⟩

/-- Claim C4 counterexample: at a geometry whose ring holds a 1-component
position, decoding panics (modelled `none`) instead of surfacing any error
value; no "malformed geometry" error kind exists. -/
theorem malformed_geometry_no_error_value :
    geojson_value_to_polygon (GeojsonValue.polygon [[[1]]]) = none := rfl

/-- Claim C4 (amended): a ring position with neither 2 nor 3 components
makes `linestring_help` panic (`panic!("invalid positions for a
polygon")`, modelled `none`); and the library error type carries only the
`NetworkProblem`, `JsonProblem` and `EmptyResponse` kinds — there is no
distinct "malformed geometry" error value. -/
theorem malformed_position_panics :
    (∀ positions : List Position,
      (∃ pos ∈ positions, pos.length ≠ 2 ∧ pos.length ≠ 3) →
      linestring_help positions = none) ∧
    (∀ e : Error, (∃ r, e = Error.networkProblem r) ∨
      (∃ r, e = Error.jsonProblem r) ∨ e = Error.emptyResponse) := by
  constructor
  · intro positions
    induction positions with
    | nil => rintro ⟨pos, hmem, -⟩; cases hmem
    | cons p rest ih =>
      rintro ⟨pos, hmem, h2, h3⟩
      rcases List.mem_cons.mp hmem with rfl | hmem
      · rcases pos with _ | ⟨a, _ | ⟨b, _ | ⟨c, _ | ⟨d, r⟩⟩⟩⟩
        · rfl
        · rfl
        · exact absurd rfl h2
        · exact absurd rfl h3
        · rfl
      · have hrest := ih ⟨pos, hmem, h2, h3⟩
        rcases p with _ | ⟨a, _ | ⟨b, _ | ⟨c, _ | ⟨d, r⟩⟩⟩⟩
        · rfl
        · rfl
        · simp [linestring_help, hrest]
        · simp [linestring_help, hrest]
        · rfl
  · intro e
    cases e with
    | networkProblem r => exact Or.inl ⟨r, rfl⟩
    | jsonProblem r => exact Or.inr (Or.inl ⟨r, rfl⟩)
    | emptyResponse => exact Or.inr (Or.inr rfl)

/-- Witness for C4: a concrete position list with a malformed entry makes
`linestring_help` panic. -/
theorem malformed_position_panics_witness :
    linestring_help [[1, 2], [5]] = none :=
  malformed_position_panics.1 [[1, 2], [5]]
    ⟨[5], List.mem_cons_of_mem _ (List.mem_cons_self _ _), by simp, by simp⟩

/-- Claim C8 counterexample: a Polygon value with an empty ring list makes
`geojson_value_to_polygon` hit `unreachable!()` (modelled `none`) rather
than return a polygon. -/
theorem geojson_polygon_empty_rings_panics :
    geojson_value_to_polygon (GeojsonValue.polygon []) = none := rfl

/-- Claim C8 (amended): `geojson_value_to_polygon` returns `None`
(successfully) for every non-Polygon discriminant, and for every Polygon
value with a nonempty ring list of well-formed (2-D/3-D) positions it
returns a polygon whose hole count is the ring count minus one. -/
theorem geojson_value_to_polygon_spec :
    (∀ v : GeojsonValue, (∀ rings, v ≠ GeojsonValue.polygon rings) →
      geojson_value_to_polygon v = some none) ∧
    (∀ rings, rings ≠ [] →
      (∀ ring ∈ rings, ∀ pos ∈ ring, pos.length = 2 ∨ pos.length = 3) →
      ∃ p : GeoPolygon,
        geojson_value_to_polygon (GeojsonValue.polygon rings) = some (some p) ∧
        p.interiors.length = rings.length - 1) := by
  constructor
  · intro v hv
    cases v with
    | point p => rfl
    | multiPoint ps => rfl
    | lineString ps => rfl
    | multiLineString ls => rfl
    | polygon rings => exact absurd rfl (hv rings)
    | multiPolygon polys => rfl
    | geometryCollection => rfl
  · intro rings hne hwf
    rcases rings with _ | ⟨outer, inners⟩
    · exact absurd rfl hne
    · obtain ⟨lo, hlo⟩ := linestring_help_total outer (hwf outer (List.mem_cons_self _ _))
      obtain ⟨ls, hls, hlen⟩ :=
        rings_help_total inners (fun r hr => hwf r (List.mem_cons_of_mem _ hr))
      refine ⟨GeoPolygon.new lo ls, ?_, ?_⟩
      · simp [geojson_value_to_polygon, hlo, hls]
      · simp [GeoPolygon.new, hlen]

/-- Witness for C8: a non-Polygon value yields `None`, and a concrete
well-formed Polygon value does produce a polygon. -/
theorem geojson_value_to_polygon_spec_witness :
    geojson_value_to_polygon (GeojsonValue.point [1, 2]) = some none ∧
    geojson_value_to_polygon (GeojsonValue.polygon [[[0, 0], [1, 0], [0, 0]]]) ≠ none := by
  constructor
  · exact geojson_value_to_polygon_spec.1 _ (fun rings h => GeojsonValue.noConfusion h)
  · obtain ⟨p, hp, -⟩ := geojson_value_to_polygon_spec.2 [[[0, 0], [1, 0], [0, 0]]]
      (by simp) (by intro ring hr pos hpos
                    rcases List.mem_singleton.mp hr with rfl
                    rcases List.mem_cons.mp hpos with rfl | hpos
                    · simp
                    rcases List.mem_cons.mp hpos with rfl | hpos
                    · simp
                    rcases List.mem_singleton.mp hpos with rfl
                    simp)
    rw [hp]
    simp

/-- A successful run of the link-resolution loop puts its results in
one-to-one, order-preserving correspondence with the links: the i-th
result is built from the building fetched at the i-th link. -/
lemma resolve_links_ok_forall2 (w : BagWorld) (v : Int) (s g : String) :
    ∀ (links : List Link) (results : List Pand),
      resolve_links w v s g links = RunResult.ok results →
      List.Forall₂ (fun (l : Link) (p : Pand) => ∃ b polygon,
        get_link w l.href = Except.ok b ∧
        geojson_value_to_polygon b.pand.geometry.value = some (some polygon) ∧
        p = mk_pand b polygon v s g) links results := by
  intro links
  induction links with
  | nil =>
    intro results h
    simp only [resolve_links] at h
    obtain rfl := (RunResult.ok.inj h).symm
    exact List.Forall₂.nil
  | cons link rest ih =>
    intro results h
    cases hb : get_link w link.href with
    | error e =>
      simp only [resolve_links, hb] at h
      exact RunResult.noConfusion h
    | ok building =>
      cases hgeo : geojson_value_to_polygon building.pand.geometry.value with
      | none =>
        simp only [resolve_links, hb, hgeo] at h
        exact RunResult.noConfusion h
      | some o =>
        cases o with
        | none =>
          simp only [resolve_links, hb, hgeo] at h
          exact RunResult.noConfusion h
        | some polygon =>
          cases hr : resolve_links w v s g rest with
          | ok tail =>
            simp only [resolve_links, hb, hgeo, hr] at h
            obtain rfl := (RunResult.ok.inj h).symm
            exact List.Forall₂.cons ⟨building, polygon, hb, hgeo, rfl⟩ (ih tail hr)
          | err e =>
            simp only [resolve_links, hb, hgeo, hr] at h
            exact RunResult.noConfusion h
          | panicked =>
            simp only [resolve_links, hb, hgeo, hr] at h
            exact RunResult.noConfusion h

/-- If the loop reaches a link whose fetch fails — every earlier link
having succeeded — the whole loop evaluates to that error. -/
lemma resolve_links_err_of_fail (w : BagWorld) (v : Int) (s g : String)
    (link : Link) (e : Error) (post : List Link)
    (hfail : get_link w link.href = Except.error e) :
    ∀ pre : List Link,
      (∀ l ∈ pre, ∃ b polygon, get_link w l.href = Except.ok b ∧
        geojson_value_to_polygon b.pand.geometry.value = some (some polygon)) →
      resolve_links w v s g (pre ++ link :: post) = RunResult.err e := by
  intro pre
  induction pre with
  | nil =>
    intro _
    simp only [List.nil_append, resolve_links, hfail]
  | cons l rest ih =>
    intro hpre
    obtain ⟨b, polygon, hb, hp⟩ := hpre l (List.mem_cons_self l rest)
    have ih2 := ih (fun x hx => hpre x (List.mem_cons_of_mem l hx))
    simp only [List.cons_append, List.append_eq, resolve_links, hb, hp, ih2]

/-- Claim C1: a transport-level failure of the root fetch of `get_panden`
is downgraded to a successful empty list, while a decode failure of the
root response propagates as a `JsonProblem` error. -/
theorem get_panden_root_transport_downgrade (w : BagWorld) (object_id : String) :
    (∀ e, w.transport (bag_object_url object_id) = Except.error e →
      get_panden w object_id = RunResult.ok []) ∧
    (∀ r e, w.transport (bag_object_url object_id) = Except.ok r →
      w.decodeRoot r = Except.error e →
      get_panden w object_id = RunResult.err (Error.jsonProblem e)) := by
  constructor
  · intro e he
    simp only [get_panden, he]
  · intro r e hr hd
    simp only [get_panden, hr, decode_verblijfsobjecten, hd]

/-- Witness for C1: concrete worlds exhibiting the downgrade of a root
transport failure and the propagation of a root decode failure. -/
theorem get_panden_root_transport_downgrade_witness :
    get_panden w_netfail "x" = RunResult.ok [] ∧
    get_panden w_decodefail "x" = RunResult.err (Error.jsonProblem ⟨8⟩) :=
  ⟨(get_panden_root_transport_downgrade w_netfail "x").1 ⟨7⟩ rfl,
   (get_panden_root_transport_downgrade w_decodefail "x").2 ⟨1⟩ ⟨8⟩ rfl rfl⟩

/-- Claim C5: once the root record has decoded, a failure (network or
decode) of any individual follow-up building fetch aborts the whole
resolution — the error propagates out of `get_panden`, even though every
earlier link in the batch succeeded, and no partial list is returned. -/
theorem get_panden_link_failure_aborts (w : BagWorld) (object_id : String)
    (root : Response) (decoded : VerblijfsObjectResponse)
    (hroot : w.transport (bag_object_url object_id) = Except.ok root)
    (hdec : w.decodeRoot root = Except.ok decoded)
    (pre post : List Link) (link : Link) (e : Error)
    (hsplit : decoded.links.maakt_deel_uit_van = pre ++ link :: post)
    (hpre : ∀ l ∈ pre, ∃ b polygon, get_link w l.href = Except.ok b ∧
      geojson_value_to_polygon b.pand.geometry.value = some (some polygon))
    (hfail : get_link w link.href = Except.error e) :
    get_panden w object_id = RunResult.err e := by
  simp only [get_panden, hroot, decode_verblijfsobjecten, hdec, hsplit]
  exact resolve_links_err_of_fail w _ _ _ link e post hfail pre hpre

/-- Witness for C5: in `w_mixed` the first link succeeds and the second
fails at the transport level; `get_panden` returns that error. -/
theorem get_panden_link_failure_aborts_witness :
    get_panden w_mixed "x" = RunResult.err (Error.networkProblem ⟨7⟩) :=
  get_panden_link_failure_aborts w_mixed "x" ⟨1⟩ decoded_mixed rfl rfl
    [⟨"a"⟩] [] ⟨"bad"⟩ (Error.networkProblem ⟨7⟩) rfl
    (fun l hl => by
      rcases List.mem_singleton.mp hl with rfl
      exact ⟨building1, poly1, rfl, rfl⟩)
    rfl

/-- Claim C6: in a successful resolution every pand's `identificatiecode`
is the `identificatie` of the building it was derived from, and the
broadcast fields `vloeroppervlak`, `objectstatus` and `gebruiksdoel` (the
usage labels joined with ", ") take the same root-record-derived value on
every pand of the batch. -/
theorem get_panden_field_invariants (w : BagWorld) (object_id : String)
    (root : Response) (decoded : VerblijfsObjectResponse) (results : List Pand)
    (hroot : w.transport (bag_object_url object_id) = Except.ok root)
    (hdec : w.decodeRoot root = Except.ok decoded)
    (hok : get_panden w object_id = RunResult.ok results) :
    (∀ p ∈ results, ∃ l b polygon,
      l ∈ decoded.links.maakt_deel_uit_van ∧
      get_link w l.href = Except.ok b ∧
      geojson_value_to_polygon b.pand.geometry.value = some (some polygon) ∧
      p.identificatiecode = b.pand.identificatie ∧
      p.vloeroppervlak = toString decoded.verblijfsobject.oppervlakte ∧
      p.objectstatus = decoded.verblijfsobject.status ∧
      p.gebruiksdoel = String.intercalate ", " decoded.verblijfsobject.gebruiksdoelen) ∧
    (∀ p ∈ results, ∀ q ∈ results,
      p.vloeroppervlak = q.vloeroppervlak ∧ p.objectstatus = q.objectstatus ∧
      p.gebruiksdoel = q.gebruiksdoel) := by
  simp only [get_panden, hroot, decode_verblijfsobjecten, hdec] at hok
  have h2 := resolve_links_ok_forall2 w _ _ _ _ _ hok
  have key : ∀ p ∈ results, ∃ l b polygon,
      l ∈ decoded.links.maakt_deel_uit_van ∧
      get_link w l.href = Except.ok b ∧
      geojson_value_to_polygon b.pand.geometry.value = some (some polygon) ∧
      p.identificatiecode = b.pand.identificatie ∧
      p.vloeroppervlak = toString decoded.verblijfsobject.oppervlakte ∧
      p.objectstatus = decoded.verblijfsobject.status ∧
      p.gebruiksdoel = String.intercalate ", " decoded.verblijfsobject.gebruiksdoelen := by
    intro p hp
    obtain ⟨l, hl, b, polygon, hb, hgeo, heq⟩ := forall2_mem_right h2 p hp
    exact ⟨l, b, polygon, hl, hb, hgeo, by rw [heq]; rfl, by rw [heq]; rfl,
      by rw [heq]; rfl, by rw [heq]; rfl⟩
  refine ⟨key, fun p hp q hq => ?_⟩
  obtain ⟨-, -, -, -, -, -, -, hp1, hp2, hp3⟩ := key p hp
  obtain ⟨-, -, -, -, -, -, -, hq1, hq2, hq3⟩ := key q hq
  exact ⟨hp1.trans hq1.symm, hp2.trans hq2.symm, hp3.trans hq3.symm⟩

/-- Witness for C6: in the all-success world the broadcast fields of the
produced pand take the root record's values. -/
theorem get_panden_field_invariants_witness :
    p_ok.vloeroppervlak = "42" ∧ p_ok.objectstatus = "s" ∧ p_ok.gebruiksdoel = "a, b" := by
  obtain ⟨-, -, -, -, -, -, -, h1, h2, h3⟩ :=
    (get_panden_field_invariants w_ok "x" ⟨1⟩ decoded_two pands_ok rfl rfl rfl).1
      p_ok (List.mem_cons_self p_ok [p_ok])
  exact ⟨h1, h2, h3⟩

/-- Claim C7: a successful `get_panden` run returns exactly as many pands
as the root record has "maakt deel uit van" links, in the same order — the
i-th pand is built from the building fetched at the i-th link, with no
reordering and no deduplication of repeated targets. -/
theorem get_panden_order_preservation (w : BagWorld) (object_id : String)
    (root : Response) (decoded : VerblijfsObjectResponse) (results : List Pand)
    (hroot : w.transport (bag_object_url object_id) = Except.ok root)
    (hdec : w.decodeRoot root = Except.ok decoded)
    (hok : get_panden w object_id = RunResult.ok results) :
    results.length = decoded.links.maakt_deel_uit_van.length ∧
    List.Forall₂ (fun (l : Link) (p : Pand) => ∃ b polygon,
      get_link w l.href = Except.ok b ∧
      geojson_value_to_polygon b.pand.geometry.value = some (some polygon) ∧
      p = mk_pand b polygon decoded.verblijfsobject.oppervlakte
            decoded.verblijfsobject.status
            (String.intercalate ", " decoded.verblijfsobject.gebruiksdoelen))
      decoded.links.maakt_deel_uit_van results := by
  simp only [get_panden, hroot, decode_verblijfsobjecten, hdec] at hok
  have h2 := resolve_links_ok_forall2 w _ _ _ _ _ hok
  exact ⟨h2.length_eq.symm, h2⟩

/-- Witness for C7: the two-link fixture produces exactly two pands. -/
theorem get_panden_order_preservation_witness :
    pands_ok.length = decoded_two.links.maakt_deel_uit_van.length :=
  (get_panden_order_preservation w_ok "x" ⟨1⟩ decoded_two pands_ok rfl rfl rfl).1

/-- Claim C10: `get_bag_status` returns `Ok(true)` exactly when
`get_panden` for the fixed probe object succeeds with a single result; any
other successful count panics rather than returning an error value; an
error from `get_panden` propagates; and `Ok(false)` is never returned. -/
theorem get_bag_status_spec (w : BagWorld) :
    (get_bag_status w = RunResult.ok true ↔
      ∃ p : Pand, get_panden w tg_office_verblijfsobject = RunResult.ok [p]) ∧
    (∀ results : List Pand,
      get_panden w tg_office_verblijfsobject = RunResult.ok results →
      results.length ≠ 1 → get_bag_status w = RunResult.panicked) ∧
    (∀ e : Error, get_panden w tg_office_verblijfsobject = RunResult.err e →
      get_bag_status w = RunResult.err e) ∧
    (∀ b : Bool, get_bag_status w = RunResult.ok b → b = true) := by
  refine ⟨⟨?_, ?_⟩, ?_, ?_, ?_⟩
  · intro h
    unfold get_bag_status at h
    cases hp : get_panden w tg_office_verblijfsobject with
    | ok panden =>
      rw [hp] at h
      rcases panden with _ | ⟨p, _ | ⟨q, rest⟩⟩
      · exact RunResult.noConfusion h
      · exact ⟨p, rfl⟩
      · exact RunResult.noConfusion h
    | err e => rw [hp] at h; exact RunResult.noConfusion h
    | panicked => rw [hp] at h; exact RunResult.noConfusion h
  · rintro ⟨p, hp⟩
    unfold get_bag_status
    rw [hp]
    rfl
  · intro results h hne
    unfold get_bag_status
    rw [h]
    rcases results with _ | ⟨p, _ | ⟨q, rest⟩⟩
    · rfl
    · exact absurd rfl hne
    · rfl
  · intro e h
    unfold get_bag_status
    rw [h]
  · intro b h
    unfold get_bag_status at h
    cases hp : get_panden w tg_office_verblijfsobject with
    | ok panden =>
      rw [hp] at h
      rcases panden with _ | ⟨p, _ | ⟨q, rest⟩⟩
      · exact RunResult.noConfusion h
      · exact (RunResult.ok.inj h).symm
      · exact RunResult.noConfusion h
    | err e => rw [hp] at h; exact RunResult.noConfusion h
    | panicked => rw [hp] at h; exact RunResult.noConfusion h

/-- Witness for C10: in the single-link world the probe resolves to one
pand and the status check returns `Ok(true)`. -/
theorem get_bag_status_spec_witness :
    get_bag_status w_status = RunResult.ok true :=
  (get_bag_status_spec w_status).1.2 ⟨p_ok, rfl⟩

/-- Merging bounding boxes is commutative (no properness needed). -/
lemma merge_bboxes_comm (a b : Rect) : merge_bboxes a b = merge_bboxes b a := by
  simp [merge_bboxes, Rect.new, min_comm, max_comm]

/-- When the second argument is proper, the `Rect.new` re-normalisation
inside `merge_bboxes` is the identity. -/
lemma merge_eq_naive (b x : Rect) (hx : x.proper) :
    merge_bboxes b x = merge_naive b x := by
  obtain ⟨h1, h2⟩ := hx
  have hx1 : Min.min b.min.x x.min.x ≤ Max.max b.max.x x.max.x :=
    le_trans (min_le_right _ _) (le_trans h1 (le_max_right _ _))
  have hx2 : Min.min b.min.y x.min.y ≤ Max.max b.max.y x.max.y :=
    le_trans (min_le_right _ _) (le_trans h2 (le_max_right _ _))
  simp only [merge_bboxes, merge_naive, Rect.new]
  rw [min_eq_left hx1, min_eq_left hx2, max_eq_right hx1, max_eq_right hx2]

/-- The normalisation-free merge of two proper rects is proper. -/
lemma merge_naive_proper (b x : Rect) (_hb : b.proper) (hx : x.proper) :
    (merge_naive b x).proper := by
  obtain ⟨hx1, hx2⟩ := hx
  refine ⟨?_, ?_⟩
  · exact le_trans (min_le_right _ _) (le_trans hx1 (le_max_right _ _))
  · exact le_trans (min_le_right _ _) (le_trans hx2 (le_max_right _ _))

/-- The normalisation-free merge commutes in its last two arguments. -/
lemma merge_naive_right_comm (b x y : Rect) :
    merge_naive (merge_naive b x) y = merge_naive (merge_naive b y) x := by
  simp [merge_naive, inf_right_comm, sup_right_comm]

/-- Folding two proper rects into an optional accumulator commutes. -/
lemma merge_step_right_comm (x y : Rect) (hx : x.proper) (hy : y.proper) :
    ∀ z : Option Rect, merge_step (merge_step z x) y = merge_step (merge_step z y) x := by
  intro z
  cases z with
  | none => simp [merge_step, merge_bboxes_comm x y]
  | some b =>
    simp only [merge_step]
    rw [merge_eq_naive b x hx, merge_eq_naive b y hy,
      merge_eq_naive _ y hy, merge_eq_naive _ x hx, merge_naive_right_comm]

/-- Folding `merge_step` from a `some` accumulator is the plain
`merge_bboxes` fold. -/
lemma foldl_merge_step_some (xs : List Rect) :
    ∀ a, xs.foldl merge_step (some a) = some (xs.foldl merge_bboxes a) := by
  induction xs with
  | nil => intro a; rfl
  | cons x xs ih => intro a; simp [List.foldl_cons, merge_step, ih (merge_bboxes a x)]

/-- `merge_bbox_iter` is the `merge_step` fold from the empty accumulator. -/
lemma merge_bbox_iter_eq_foldl (l : List Rect) :
    merge_bbox_iter l = l.foldl merge_step none := by
  cases l with
  | nil => rfl
  | cons x xs =>
    simp [merge_bbox_iter, fold_first, List.foldl_cons, merge_step, foldl_merge_step_some]

/-- Claim C9: `merge_bbox_iter` yields nothing on an empty sequence,
yields a singleton's element unchanged, and — `merge_bboxes` being
commutative and (on proper rects, the only ones geo's `Rect` API can
produce) associative — the final merged box is invariant under any
reordering of the input sequence. -/
theorem merge_bbox_iter_spec :
    merge_bbox_iter [] = none ∧
    (∀ r : Rect, merge_bbox_iter [r] = some r) ∧
    (∀ a b : Rect, merge_bboxes a b = merge_bboxes b a) ∧
    (∀ a b c : Rect, b.proper → c.proper →
      merge_bboxes (merge_bboxes a b) c = merge_bboxes a (merge_bboxes b c)) ∧
    (∀ l₁ l₂ : List Rect, l₁.Perm l₂ → (∀ r ∈ l₁, r.proper) →
      merge_bbox_iter l₁ = merge_bbox_iter l₂) := by
  refine ⟨rfl, fun r => rfl, merge_bboxes_comm, ?_, ?_⟩
  · intro a b c hb hc
    rw [merge_eq_naive a b hb, merge_eq_naive _ c hc, merge_eq_naive b c hc,
      merge_eq_naive a _ (merge_naive_proper b c hb hc)]
    simp [merge_naive, min_assoc, max_assoc]
  · intro l₁ l₂ hp hprop
    rw [merge_bbox_iter_eq_foldl, merge_bbox_iter_eq_foldl]
    exact hp.foldl_eq'
      (fun x hx y hy z => merge_step_right_comm x y (hprop x hx) (hprop y hy) z) none

/-- Witness for C9: two concrete proper rects merge to the same box in
either order. -/
theorem merge_bbox_iter_spec_witness :
    merge_bbox_iter [rA, rB] = merge_bbox_iter [rB, rA] :=
  merge_bbox_iter_spec.2.2.2.2 [rA, rB] [rB, rA] (List.Perm.swap rB rA [])
    (by intro r hr
        rcases List.mem_cons.mp hr with rfl | hr
        · exact ⟨by norm_num [rA], by norm_num [rA]⟩
        rcases List.mem_singleton.mp hr with rfl
        exact ⟨by norm_num [rB], by norm_num [rB]⟩)

end PdokApis
